import Mathlib

/-
Shallow embedding of src/src-tauri/icons/convert_to_rgba.py.

The script opens a fixed source file, converts the decoded raster to RGBA
when its mode is not already RGBA, saves the result to a fixed destination
path in PNG format, prints a success line, reopens the destination as a
verification step and prints its mode and size.  A module-level import of
the image library precedes the try block; the try block is wrapped by an
except ImportError handler and a generic except Exception handler, each
printing a message and exiting with status 1.
-/

namespace ConvertToRgba

/-- Color modes of a decoded raster, as the image library enumerates them.
The script only tests equality with RGBA (line 11). -/
inductive Mode where
  | RGB
  | RGBA
  | LA
  | L
  | P
  deriving DecidableEq, Repr

/-- Whether a mode carries an alpha channel (RGBA and LA do). -/
def Mode.hasAlpha : Mode → Bool
  | .RGBA => true
  | .LA => true
  | _ => false

/-- One pixel: red, green, blue channels plus an optional explicit alpha
value; none means the pixel has no explicit alpha channel. -/
structure Pixel where
  r : Nat
  g : Nat
  b : Nat
  a : Option Nat
  deriving DecidableEq, Repr

/-- A decoded in-memory raster: mode, dimensions, pixel buffer. -/
structure Image where
  mode : Mode
  width : Nat
  height : Nat
  pixels : List Pixel
  deriving DecidableEq, Repr

/-- Conversion of one pixel to RGBA: a pixel without an explicit alpha
value is assigned full opacity (255); an existing alpha value is kept. -/
def Pixel.withFullAlpha (p : Pixel) : Pixel :=
  { p with a := some (p.a.getD 255) }

/-- The img.convert step of line 12: the mode becomes RGBA, dimensions are
unchanged, every pixel gains an alpha value. -/
def Image.convertRGBA (img : Image) : Image :=
  { mode := .RGBA, width := img.width, height := img.height,
    pixels := img.pixels.map Pixel.withFullAlpha }

/-- Lines 11 and 12 of the script: convert to RGBA exactly when the mode
is not already RGBA, otherwise pass the raster through unchanged. -/
def processImage (img : Image) : Image :=
  if img.mode ≠ Mode.RGBA then img.convertRGBA else img

/-- Container formats a source file may be encoded in.  The image library
detects the format from the file content, not from the file name. -/
inductive Format where
  | PNG
  | JPEG
  deriving DecidableEq, Repr

/-- An encoded file on disk: its container format and its decoded raster.
Encoding and decoding are modelled as faithful round trips. -/
structure File where
  format : Format
  image : Image
  deriving DecidableEq, Repr

/-- The filesystem seen by the routine: newest entry first. -/
abbrev FS := List (String × File)

/-- Look a file up by name. -/
def FS.lookup : FS → String → Option File
  | [], _ => none
  | (n, f) :: rest, name => if name = n then some f else FS.lookup rest name

/-- Write a file, shadowing any previous entry under the same name. -/
def FS.write (fs : FS) (name : String) (f : File) : FS :=
  (name, f) :: fs

/-- The fixed source path of line 8. -/
def srcName : String := "app_icon.png"

/-- The fixed destination path of line 15. -/
def dstName : String := "app_icon_rgba.png"

/-- The environment a run happens in: whether the image library is
installed, and whether each fallible I/O step fails for an environmental
reason (corrupt source, write permission failure, interference between
the save and the verification reopen). -/
structure Env where
  pilAvailable : Bool
  openFails : Bool
  saveFails : Bool
  verifyFails : Bool
  deriving DecidableEq, Repr

/-- The failure a run can report. -/
inductive Err where
  | fileNotFound (name : String)
  | openFailure
  | saveFailure
  | verifyFailure
  deriving DecidableEq, Repr

/-- The lines the script prints to standard output. -/
inductive Msg where
  | success
  | modeReport (m : Mode)
  | sizeReport (w h : Nat)
  | pilGuidance
  | errorReport (e : Err)
  deriving DecidableEq, Repr

/-- Observable outcome of one run: the process exit status, the lines
printed to standard output, whether the interpreter died with an uncaught
exception traceback (printed to standard error), and the final
filesystem. -/
structure RunResult where
  exitCode : Nat
  stdout : List Msg
  uncaughtTraceback : Bool
  fs : FS
  deriving DecidableEq, Repr

/-- The whole script, traced line by line.  When the image library is
unavailable the module-level import at line 3 raises before the try block
at line 6 is entered: the interpreter prints a traceback to standard
error and exits with status 1, and the except ImportError handler at
lines 23 to 25 never runs, so the install guidance line is never printed.
Otherwise: open the source (line 8, failing when the file is missing or
unreadable), convert when the mode is not RGBA (lines 11 and 12), save as
PNG (line 15, the format is the explicit second argument), print the
success line (line 16), reopen the destination and print its mode and
size (lines 19 to 21).  Any failure inside the try block is caught by the
generic handler at lines 26 to 28, which prints the error and exits with
status 1. -/
def run (env : Env) (fs : FS) : RunResult :=
  if env.pilAvailable = false then
    { exitCode := 1, stdout := [], uncaughtTraceback := true, fs := fs }
  else
    match FS.lookup fs srcName with
    | none =>
        { exitCode := 1, stdout := [.errorReport (.fileNotFound srcName)],
          uncaughtTraceback := false, fs := fs }
    | some file =>
        if env.openFails then
          { exitCode := 1, stdout := [.errorReport .openFailure],
            uncaughtTraceback := false, fs := fs }
        else
          let converted := processImage file.image
          if env.saveFails then
            { exitCode := 1, stdout := [.errorReport .saveFailure],
              uncaughtTraceback := false, fs := fs }
          else
            let fs2 := FS.write fs dstName { format := .PNG, image := converted }
            if env.verifyFails then
              { exitCode := 1, stdout := [.success, .errorReport .verifyFailure],
                uncaughtTraceback := false, fs := fs2 }
            else
              { exitCode := 0,
                stdout := [.success, .modeReport converted.mode,
                           .sizeReport converted.width converted.height],
                uncaughtTraceback := false, fs := fs2 }

/-- Concrete environments and files used by witnesses. -/
def envOk : Env :=
  { pilAvailable := true, openFails := false, saveFails := false, verifyFails := false }

def envNoPil : Env :=
  { pilAvailable := false, openFails := false, saveFails := false, verifyFails := false }

def envVerifyFail : Env :=
  { pilAvailable := true, openFails := false, saveFails := false, verifyFails := true }

def rgbImg : Image :=
  { mode := .RGB, width := 2, height := 2,
    pixels := [⟨10, 20, 30, none⟩, ⟨1, 2, 3, none⟩, ⟨4, 5, 6, none⟩, ⟨7, 8, 9, none⟩] }

def rgbaImg : Image :=
  { mode := .RGBA, width := 1, height := 1, pixels := [⟨10, 20, 30, some 40⟩] }

def laImg : Image :=
  { mode := .LA, width := 1, height := 1, pixels := [⟨7, 7, 7, some 9⟩] }

def fsGood : FS := [(srcName, { format := Format.PNG, image := rgbImg })]

def fsJpeg : FS := [(srcName, { format := Format.JPEG, image := rgbImg })]

/-- Helper: the processed raster always has mode RGBA. -/
theorem processImage_mode (img : Image) : (processImage img).mode = Mode.RGBA := by
  unfold processImage
  by_cases h : img.mode = Mode.RGBA
  · simp [h]
  · simp [h, Image.convertRGBA]

/-- Helper: a mode without alpha is not RGBA. -/
theorem mode_ne_rgba_of_no_alpha {m : Mode} (h : m.hasAlpha = false) :
    m ≠ Mode.RGBA := by
  intro he
  subst he
  simp [Mode.hasAlpha] at h

/-- Helper: processing is idempotent on every raster, since the processed
raster already has mode RGBA and the second pass takes the skip branch. -/
theorem processImage_idem (img : Image) :
    processImage (processImage img) = processImage img := by
  have hy : (processImage img).mode = Mode.RGBA := processImage_mode img
  generalize processImage img = y at hy ⊢
  simp [processImage, hy]

/-- Helper: converting a pixel buffer in which every pixel already holds
an explicit alpha value changes nothing. -/
theorem map_withFullAlpha_id (l : List Pixel)
    (hw : ∀ p ∈ l, p.a.isSome = true) :
    l.map Pixel.withFullAlpha = l := by
  induction l with
  | nil => rfl
  | cons p rest ih =>
      have hp : p.a.isSome = true := hw p (List.mem_cons_self p rest)
      have hr := ih fun q hq => hw q (List.mem_cons_of_mem p hq)
      rcases p with ⟨r, g, b, a⟩
      cases a with
      | none => simp at hp
      | some v => simp [Pixel.withFullAlpha, hr]

/-- Claim C1: in every run that exits with status 0, the destination path
holds a file whose color mode carries an alpha channel. -/
theorem c1_output_has_alpha (env : Env) (fs : FS)
    (h : (run env fs).exitCode = 0) :
    ∃ f, FS.lookup (run env fs).fs dstName = some f ∧
      f.image.mode.hasAlpha = true := by
  rcases env with ⟨pa, og, sf, vf⟩
  cases pa <;> cases og <;> cases sf <;> cases vf <;>
    cases hl : FS.lookup fs srcName <;>
      simp [run, hl, FS.write, FS.lookup, processImage_mode, Mode.hasAlpha] at h ⊢

/-- Witness for C1 at a concrete successful run. -/
theorem c1_output_has_alpha_witness :
    (run envOk fsGood).exitCode = 0 ∧
    (∃ f, FS.lookup (run envOk fsGood).fs dstName = some f ∧
      f.image.mode.hasAlpha = true) :=
  ⟨by decide, c1_output_has_alpha envOk fsGood (by decide)⟩

/-- Claim C2 at its failing input: when the image library is unavailable
the process exits with status 1 before any file I/O, but via an
uncaught ImportError at the module-level import of line 3, so nothing is printed
to standard output; in particular the install guidance of the unreachable
handler at lines 23 to 25 never appears. -/
theorem c2_import_failure_no_guidance :
    (run envNoPil []).exitCode = 1 ∧
    (run envNoPil []).stdout = [] ∧
    (run envNoPil []).uncaughtTraceback = true ∧
    (run envNoPil []).fs = [] := by
  decide

/-- Claim C3 counterexample: a raster in mode LA carries an alpha channel,
yet the conversion step is not skipped on it, refuting the stated
equivalence between skipping and carrying alpha. -/
theorem c3_counterexample :
    laImg.mode.hasAlpha = true ∧ processImage laImg ≠ laImg := by
  decide

/-- Claim C3 amended: the conversion step is skipped, passing the pixel
data through unchanged, exactly when the mode is RGBA itself. -/
theorem c3_skip_iff_mode_rgba (img : Image) :
    processImage img = img ↔ img.mode = Mode.RGBA := by
  constructor
  · intro h
    have hm := congrArg Image.mode h
    rw [processImage_mode] at hm
    exact hm.symm
  · intro h
    simp [processImage, h]

/-- Claim C4 counterexample: a source file whose container format is JPEG
is decoded successfully (the library detects the format from the content,
not the name), the run exits with status 0, yet the destination file is
encoded as PNG, not in the container format of the source. -/
theorem c4_counterexample :
    (run envOk fsJpeg).exitCode = 0 ∧
    (FS.lookup (run envOk fsJpeg).fs dstName).map File.format =
      some Format.PNG ∧
    (FS.lookup fsJpeg srcName).map File.format = some Format.JPEG := by
  decide

/-- Claim C4 amended: in every run that exits with status 0 the
destination file is encoded as PNG, the format hard-coded at line 15;
this coincides with the source format exactly when the source is a
PNG. -/
theorem c4_output_always_png (env : Env) (fs : FS)
    (h : (run env fs).exitCode = 0) :
    ∃ f, FS.lookup (run env fs).fs dstName = some f ∧
      f.format = Format.PNG := by
  rcases env with ⟨pa, og, sf, vf⟩
  cases pa <;> cases og <;> cases sf <;> cases vf <;>
    cases hl : FS.lookup fs srcName <;>
      simp [run, hl, FS.write, FS.lookup] at h ⊢

/-- Witness for the amended C4 at a concrete successful run. -/
theorem c4_output_always_png_witness :
    (run envOk fsGood).exitCode = 0 ∧
    (∃ f, FS.lookup (run envOk fsGood).fs dstName = some f ∧
      f.format = Format.PNG) :=
  ⟨by decide, c4_output_always_png envOk fsGood (by decide)⟩

/-- Claim C5: when the library is available but the source file is
missing, the run prints an error line, exits with status 1, and leaves
the filesystem unchanged, so no destination file is created. -/
theorem c5_missing_source (env : Env) (fs : FS)
    (hp : env.pilAvailable = true)
    (h : FS.lookup fs srcName = none) :
    (run env fs).exitCode = 1 ∧
    (run env fs).stdout = [Msg.errorReport (Err.fileNotFound srcName)] ∧
    (run env fs).fs = fs := by
  simp [run, hp, h]

/-- Witness for C5 on an empty filesystem. -/
theorem c5_missing_source_witness :
    envOk.pilAvailable = true ∧
    FS.lookup ([] : FS) srcName = none ∧
    ((run envOk []).exitCode = 1 ∧
     (run envOk []).stdout = [Msg.errorReport (Err.fileNotFound srcName)] ∧
     (run envOk []).fs = []) :=
  ⟨by decide, by decide, c5_missing_source envOk [] (by decide) (by decide)⟩

/-- Claim C6: for a raster whose mode does not carry alpha, the processed
raster has an alpha-carrying mode, the same dimensions and the same pixel
count, and every pixel that had no explicit alpha value keeps its color
channels and is assigned full opacity. -/
theorem c6_convert_no_alpha (img : Image) (h : img.mode.hasAlpha = false) :
    (processImage img).mode.hasAlpha = true ∧
    (processImage img).width = img.width ∧
    (processImage img).height = img.height ∧
    (processImage img).pixels.length = img.pixels.length ∧
    ∀ i : Nat, ∀ p : Pixel, img.pixels[i]? = some p → p.a = none →
      (processImage img).pixels[i]? =
        some { r := p.r, g := p.g, b := p.b, a := some 255 } := by
  have hne := mode_ne_rgba_of_no_alpha h
  have hpi : processImage img = img.convertRGBA := by
    simp [processImage, hne]
  rw [hpi]
  refine ⟨by simp [Image.convertRGBA, Mode.hasAlpha],
    by simp [Image.convertRGBA],
    by simp [Image.convertRGBA],
    by simp [Image.convertRGBA], ?_⟩
  intro i p hp ha
  simp [Image.convertRGBA, List.getElem?_map, hp, Pixel.withFullAlpha, ha]

/-- Witness for C6 at a concrete RGB raster. -/
theorem c6_convert_no_alpha_witness :
    rgbImg.mode.hasAlpha = false ∧
    ((processImage rgbImg).mode.hasAlpha = true ∧
     (processImage rgbImg).width = rgbImg.width ∧
     (processImage rgbImg).height = rgbImg.height ∧
     (processImage rgbImg).pixels.length = rgbImg.pixels.length ∧
     ∀ i : Nat, ∀ p : Pixel, rgbImg.pixels[i]? = some p → p.a = none →
       (processImage rgbImg).pixels[i]? =
         some { r := p.r, g := p.g, b := p.b, a := some 255 }) :=
  ⟨by decide, c6_convert_no_alpha rgbImg (by decide)⟩

/-- Claim C7: on a valid raster whose mode already carries an alpha
channel (so every pixel holds an explicit alpha value), the output pixel
data equals the input pixel data, and applying the routine to its own
output changes nothing (idempotence on pixel data).  This covers both a
raster in mode RGBA, passed through unchanged, and a raster in another
alpha-carrying mode such as LA, whose conversion keeps every pixel. -/
theorem c7_alpha_passthrough_idempotent (img : Image)
    (_h : img.mode.hasAlpha = true)
    (hw : ∀ p ∈ img.pixels, p.a.isSome = true) :
    (processImage img).pixels = img.pixels ∧
    processImage (processImage img) = processImage img := by
  refine ⟨?_, processImage_idem img⟩
  by_cases hm : img.mode = Mode.RGBA
  · simp [processImage, hm]
  · have hpi : processImage img = img.convertRGBA := by
      simp [processImage, hm]
    rw [hpi]
    exact map_withFullAlpha_id img.pixels hw

/-- Witness for C7 at a concrete raster in mode LA, an alpha-carrying
mode other than RGBA. -/
theorem c7_alpha_passthrough_idempotent_witness :
    laImg.mode.hasAlpha = true ∧
    (∀ p ∈ laImg.pixels, p.a.isSome = true) ∧
    ((processImage laImg).pixels = laImg.pixels ∧
     processImage (processImage laImg) = processImage laImg) :=
  ⟨by decide, by decide,
    c7_alpha_passthrough_idempotent laImg (by decide) (by decide)⟩

/-- Claim C8: every run exits with status 0 or 1, and it exits with 0
exactly when the library is available, the source file exists, and the
open, save and verification steps all succeed; the first failure stops
the run. -/
theorem c8_exit_code_characterization (env : Env) (fs : FS) :
    ((run env fs).exitCode = 0 ∨ (run env fs).exitCode = 1) ∧
    ((run env fs).exitCode = 0 ↔
      (env.pilAvailable = true ∧ (FS.lookup fs srcName).isSome = true ∧
       env.openFails = false ∧ env.saveFails = false ∧
       env.verifyFails = false)) := by
  rcases env with ⟨pa, og, sf, vf⟩
  cases pa <;> cases og <;> cases sf <;> cases vf <;>
    cases hl : FS.lookup fs srcName <;>
      simp [run, hl]

/-- Claim C9: there is a run in which the success line is printed and a
destination file has been written, yet the process exits with status 1:
the success line is printed after the save but before the verification
reopen, so a failure at the verification step yields both. -/
theorem c9_success_line_with_failure_exit :
    Msg.success ∈ (run envVerifyFail fsGood).stdout ∧
    (FS.lookup (run envVerifyFail fsGood).fs dstName).isSome = true ∧
    (run envVerifyFail fsGood).exitCode = 1 := by
  decide

/-- Claim C10: in every run, every file other than the destination path is
left exactly as it was; in particular the source file is only read, never
written or deleted, and the destination path is the only path the routine
ever writes. -/
theorem c10_frame_only_dst_written (env : Env) (fs : FS) (name : String)
    (h : name ≠ dstName) :
    FS.lookup (run env fs).fs name = FS.lookup fs name := by
  rcases env with ⟨pa, og, sf, vf⟩
  cases pa <;> cases og <;> cases sf <;> cases vf <;>
    cases hl : FS.lookup fs srcName <;>
      simp [run, hl, FS.write, FS.lookup, h]

/-- Witness for C10 at the source path of a concrete run. -/
theorem c10_frame_only_dst_written_witness :
    srcName ≠ dstName ∧
    FS.lookup (run envOk fsGood).fs srcName = FS.lookup fsGood srcName :=
  ⟨by decide, c10_frame_only_dst_written envOk fsGood srcName (by decide)⟩

end ConvertToRgba
